import Mathlib

/-!
A shallow embedding of the classification and driving-loop subsystem of
`src/esdots.c` (the `esdots` tool of the tstools repository).

The external parsing library (start-code scanning, NAL splitting, access-unit
assembly, AVS frame demultiplexing) is a black-box producer of typed units;
each driver loop is modelled over a list of fetch results, where the end of
the list plays the role of the source reporting EOF.  Each `printf` performed
by the driver is recorded as one element of a `List Out` trace.
-/

namespace Esdots

/-- One observable output emission of the tool.  `glyph` records a printf of a
classification glyph (for the AVS default case the whole hexadecimal tag
`<%x>` is a single emission); `marker` records the `"\n%d minute%s\n"` timing
line; `stopMax` the `"Stopping because %d ... have been read"` line;
`stopEOS` the `"Stopping because found end-of-stream NAL unit"` line;
`found`, `foundAvs`, `foundH264` the final summary lines; `errText` a
diagnostic message. -/
inductive Out where
  | glyph (s : String)
  | marker (minutes : Nat)
  | stopMax (n : Nat) (kind : String)
  | stopEOS
  | found (n : Nat) (kind : String)
  | foundAvs (frames : Nat) (items : Nat)
  | foundH264 (nals : Nat) (aus : Nat)
  | errText (s : String)
  deriving Repr, DecidableEq

/-- Is this emission a classification glyph? -/
def Out.isGlyph : Out → Bool
  | .glyph _ => true
  | _ => false

/-- Is this emission a minute-marker line? -/
def Out.isMarker : Out → Bool
  | .marker _ => true
  | _ => false

/-- Is this emission an explanatory stopping message
(`"Stopping because ..."`)? -/
def Out.isStopMsg : Out → Bool
  | .stopMax _ _ => true
  | .stopEOS => true
  | _ => false

/-- Number of classification glyphs in a trace. -/
def glyphCount (l : List Out) : Nat := (l.filter Out.isGlyph).length

/-- The minute-marker lines of a trace, in order. -/
def markersOf (l : List Out) : List Out := l.filter Out.isMarker

/-- Result of one fetch from the external unit source; the end of the source
list models the EOF return of the library.  `fail` models a non-EOF error
return. -/
inductive Fetch (α : Type) where
  | ok (a : α)
  | fail
  deriving Repr, DecidableEq

/-- Turn an optional glyph into trace emissions. -/
def glyphOuts : Option String → List Out
  | none => []
  | some g => [Out.glyph g]

/-! ## MPEG-2 (H.262) item mode: `h262_item_dot` / `report_h262_file_as_dots` -/

/-- An MPEG-2 item as handed over by `find_next_h262_item`: the item's
start code (`item->unit.start_code`) and its picture coding type
(`item->picture_coding_type`, meaningful for pictures). -/
structure H262Item where
  start_code : Nat
  picture_coding_type : Nat
  deriving Repr, DecidableEq

/-- The glyph chosen by the `switch` in `h262_item_dot` (src/esdots.c lines
69-96); `none` models the early `return` for slice start codes
0x01..0xAF, which prints nothing. -/
def h262_item_glyph (item : H262Item) : Option String :=
  if item.start_code = 0x00 then
    some (if item.picture_coding_type = 1 then "i"
          else if item.picture_coding_type = 2 then "p"
          else if item.picture_coding_type = 3 then "b"
          else if item.picture_coding_type = 4 then "d"
          else "x")
  else if item.start_code = 0xB0 then some "R"
  else if item.start_code = 0xB1 then some "R"
  else if item.start_code = 0xB2 then some "U"
  else if item.start_code = 0xB3 then some "["
  else if item.start_code = 0xB4 then some "X"
  else if item.start_code = 0xB5 then some "E"
  else if item.start_code = 0xB6 then some "R"
  else if item.start_code = 0xB7 then some "]"
  else if item.start_code = 0xB8 then some ">"
  else if 0x01 ≤ item.start_code ∧ item.start_code ≤ 0xAF then none
  else some "?"

/-- `h262_item_dot` (src/esdots.c lines 57-99).  The C function keeps the
picture counter in a function-local `static int frames`; here it is passed
and returned explicitly.  On a picture start code the minute marker is
tested against the counter *before* it is incremented, and any marker line
is printed before the glyph. -/
def h262_item_dot (frames : Nat) (item : H262Item) : Nat × List Out :=
  ((if item.start_code = 0x00 then frames + 1 else frames),
   (if item.start_code = 0x00 ∧ frames % (25 * 60) = 0 then
      [Out.marker (frames / (25 * 60))]
    else []) ++ glyphOuts (h262_item_glyph item))

/-- Result of one driver run over an MPEG-2 item source: the emitted trace,
the item count, the final picture counter, the number of fetches made from
the source, and whether the run ended in error. -/
structure H262Run where
  out : List Out
  count : Nat
  frames : Nat
  fetches : Nat
  err : Bool
  deriving Repr, DecidableEq

/-- The `for (;;)` loop of `report_h262_file_as_dots` (src/esdots.c lines
140-158).  An empty source list is the EOF return of
`find_next_h262_item`, which also costs one fetch. -/
def h262_loop (max : Nat) : List (Fetch H262Item) → Nat → Nat → H262Run
  | [], count, frames => ⟨[], count, frames, 1, false⟩
  | .fail :: _, count, frames =>
      ⟨[Out.errText "### Error copying NAL units\n"], count, frames, 1, true⟩
  | .ok item :: rest, count, frames =>
      let s := h262_item_dot frames item
      if 0 < max ∧ max ≤ count + 1 then
        ⟨s.2, count + 1, s.1, 1, false⟩
      else
        let r := h262_loop max rest (count + 1) s.1
        ⟨s.2 ++ r.out, r.count, r.frames, r.fetches + 1, r.err⟩

/-- `report_h262_file_as_dots` (src/esdots.c lines 110-161), non-verbose
path: run the loop from zero counters and, unless a fetch error occurred,
print the `"\nFound %d MPEG2 item%s\n"` summary. -/
def report_h262_file_as_dots (max : Nat) (src : List (Fetch H262Item)) :
    H262Run :=
  let r := h262_loop max src 0 0
  if r.err then r
  else { r with out := r.out ++ [Out.found r.count "MPEG2 item"] }

/-! ## AVS mode: `report_avs_file_as_dots` -/

/-- Modelled from the spec: the AVS picture-coding-type constants
`AVS_I_PICTURE_CODING`, `AVS_P_PICTURE_CODING`, `AVS_B_PICTURE_CODING` come
from a library header that is not under src/; the spec only requires them
to name the three distinct I/P/B coding types (§3, §4.2). -/
def AVS_I_PICTURE_CODING : Nat := 0

/-- Modelled from the spec: see `AVS_I_PICTURE_CODING`. -/
def AVS_P_PICTURE_CODING : Nat := 1

/-- Modelled from the spec: see `AVS_I_PICTURE_CODING`. -/
def AVS_B_PICTURE_CODING : Nat := 2

/-- Modelled from the spec: the library routine `avs_frame_rate` (not under
src/) maps a sequence-header frame-rate code to the stream's frame rate
(§3, §4.5), falling back to the 25 fps guess; the table is the standard AVS
frame-rate table.  The C routine returns a `double`; all its values are
positive, so it is modelled exactly as a rational. -/
def avs_frame_rate (frame_rate_code : Nat) : ℚ :=
  match frame_rate_code with
  | 1 => 24000 / 1001
  | 2 => 24
  | 3 => 25
  | 4 => 30000 / 1001
  | 5 => 30
  | 6 => 50
  | 7 => 60000 / 1001
  | 8 => 60
  | _ => 25

/-- An AVS frame as handed over by `get_next_avs_frame`: the `is_frame`
flag, the picture coding type (meaningful for frames), the start code
(meaningful for non-frames) and the frame-rate code (meaningful for
sequence headers). -/
structure AvsFrame where
  is_frame : Bool
  picture_coding_type : Nat
  start_code : Nat
  frame_rate_code : Nat
  deriving Repr, DecidableEq

/-- The lowercase hexadecimal tag `<%x>` printed by the AVS default case
(src/esdots.c line 248). -/
def hexTag (n : Nat) : String :=
  "<" ++ String.mk (Nat.toDigits 16 n) ++ ">"

/-- The glyph printed for one AVS frame by the classification block of
`report_avs_file_as_dots` (src/esdots.c lines 219-250); the whole
hexadecimal tag of the default case is one emission. -/
def avs_frame_glyph (f : AvsFrame) : String :=
  if f.is_frame then
    if f.picture_coding_type = AVS_I_PICTURE_CODING then "i"
    else if f.picture_coding_type = AVS_P_PICTURE_CODING then "p"
    else if f.picture_coding_type = AVS_B_PICTURE_CODING then "b"
    else "!"
  else if f.start_code < 0xB0 then "_"
  else if f.start_code = 0xB0 then "["
  else if f.start_code = 0xB1 then "]"
  else if f.start_code = 0xB2 then "U"
  else if f.start_code = 0xB5 then "E"
  else if f.start_code = 0xB7 then "V"
  else hexTag f.start_code

/-- The integer threshold `(int)(frame_rate*60)` of the AVS minute-marker
test (src/esdots.c line 231); the C cast truncates toward zero, which on
the nonnegative rates produced by `avs_frame_rate` is the floor. -/
def avs_threshold (rate : ℚ) : Nat := (rate * 60).floor.toNat

/-- State and trace produced by processing one AVS frame. -/
structure AvsStep where
  frames : Nat
  rate : ℚ
  out : List Out
  deriving Repr, DecidableEq

/-- The per-frame body of the loop in `report_avs_file_as_dots`
(src/esdots.c lines 219-250): frames bump the frame counter, print their
glyph and then test the minute marker against the *post-increment* counter
using the current frame-rate guess (printing `frames/(25*60)` minutes);
sequence headers (start code 0xB0) cache `avs_frame_rate` of their
frame-rate code before printing `[`. -/
def avs_step (frames : Nat) (rate : ℚ) (f : AvsFrame) : AvsStep :=
  if f.is_frame then
    { frames := frames + 1
      rate := rate
      out := [Out.glyph (avs_frame_glyph f)] ++
        (if (frames + 1) % avs_threshold rate = 0 then
          [Out.marker ((frames + 1) / (25 * 60))]
        else []) }
  else
    { frames := frames
      rate := if f.start_code = 0xB0 then avs_frame_rate f.frame_rate_code
              else rate
      out := [Out.glyph (avs_frame_glyph f)] }

/-- Result of one driver run over an AVS frame source. -/
structure AvsRun where
  out : List Out
  count : Nat
  frames : Nat
  rate : ℚ
  fetches : Nat
  err : Bool
  deriving Repr, DecidableEq

/-- The `for (;;)` loop of `report_avs_file_as_dots` (src/esdots.c lines
206-261).  The max-count test compares the *frame* counter, and stopping on
it prints the `"Stopping because %d frames have been read"` message. -/
def avs_loop (max : Nat) : List (Fetch AvsFrame) → Nat → Nat → ℚ → AvsRun
  | [], count, frames, rate => ⟨[], count, frames, rate, 1, false⟩
  | .fail :: _, count, frames, rate => ⟨[], count, frames, rate, 1, true⟩
  | .ok f :: rest, count, frames, rate =>
      let s := avs_step frames rate f
      if 0 < max ∧ max ≤ s.frames then
        ⟨s.out ++ [Out.stopMax s.frames "frames"], count + 1, s.frames,
         s.rate, 1, false⟩
      else
        let r := avs_loop max rest (count + 1) s.frames s.rate
        ⟨s.out ++ r.out, r.count, r.frames, r.rate, r.fetches + 1, r.err⟩

/-- `report_avs_file_as_dots` (src/esdots.c lines 172-267), non-verbose
path: start from the 25 fps guess and zero counters; unless a fetch error
occurred, print the `"\nFound %d frame%s in %d AVS item%s\n"` summary. -/
def report_avs_file_as_dots (max : Nat) (src : List (Fetch AvsFrame)) :
    AvsRun :=
  let r := avs_loop max src 0 0 25
  if r.err then r
  else { r with out := r.out ++ [Out.foundAvs r.frames r.count] }

/-! ## H.264 access-unit mode: `dots_by_access_unit` -/

/-- Modelled from the spec: the NAL-unit-type constants `NAL_NON_IDR` and
`NAL_IDR` come from a library header that is not under src/; the spec only
needs the kinds IDR vs. non-IDR vs. other (§3).  The values are the H.264
standard codes (1 for a non-IDR coded slice, 5 for an IDR coded slice). -/
def NAL_NON_IDR : Nat := 1

/-- Modelled from the spec: see `NAL_NON_IDR`. -/
def NAL_IDR : Nat := 5

/-- The kind of one slice of an access unit, as classified by the external
parsing library. -/
inductive SliceKind where
  | I
  | P
  | B
  | other
  deriving Repr, DecidableEq

/-- The fields of the primary NAL unit read by `dots_by_access_unit`. -/
structure NalInfo where
  nal_ref_idc : Nat
  nal_unit_type : Nat
  deriving Repr, DecidableEq

/-- An H.264 access unit as handed over by `get_next_h264_frame`: an
optional primary NAL unit and the kinds of the slices that make up the
unit (§3 of the spec: "the set of slice types present across all NAL units
belonging to this access unit"). -/
structure AccessUnit where
  primary_start : Option NalInfo
  slices : List SliceKind
  deriving Repr, DecidableEq

/-- Modelled from the spec: the library predicate `all_slices_I` (not under
src/) holds when "all constituent slices are I" (§4.3). -/
def all_slices_I (au : AccessUnit) : Bool :=
  au.slices.all (· = SliceKind.I)

/-- Modelled from the spec: see `all_slices_I`; "all P". -/
def all_slices_P (au : AccessUnit) : Bool :=
  au.slices.all (· = SliceKind.P)

/-- Modelled from the spec: see `all_slices_I`; "all B". -/
def all_slices_B (au : AccessUnit) : Bool :=
  au.slices.all (· = SliceKind.B)

/-- The classification chain of `dots_by_access_unit` (src/esdots.c lines
317-349): no primary NAL unit, then the non-reference test, then IDR, then
non-IDR reference, then `?`. -/
def access_unit_glyph (au : AccessUnit) : String :=
  match au.primary_start with
  | none => "_"
  | some p =>
    if p.nal_ref_idc = 0 then
      if all_slices_I au then "i"
      else if all_slices_P au then "p"
      else if all_slices_B au then "b"
      else "x"
    else if p.nal_unit_type = NAL_IDR then
      if all_slices_I au then "D" else "d"
    else if p.nal_unit_type = NAL_NON_IDR then
      if all_slices_I au then "I"
      else if all_slices_P au then "P"
      else if all_slices_B au then "B"
      else "X"
    else "?"

/-- The shared parsing context as seen by `dots_by_access_unit`: the
`end_of_stream` and `no_more_data` flags and the running NAL-unit count
`context->nac->count`, all owned by the external library but read (and,
for the flags, reset) by the driver. -/
structure AUContext where
  end_of_stream : Bool
  no_more_data : Bool
  nal_count : Nat
  deriving Repr, DecidableEq

/-- One successful fetch from `get_next_h264_frame`, black-box modelled:
the access unit delivered plus the values the library left in the shared
context after this fetch. -/
structure H264Event where
  unit : AccessUnit
  eos_after : Bool
  nmd_after : Bool
  nal_count_after : Nat
  deriving Repr, DecidableEq

/-- Result of one driver run over an H.264 access-unit source. -/
structure H264Run where
  out : List Out
  count : Nat
  ctx : AUContext
  fetches : Nat
  err : Bool
  deriving Repr, DecidableEq

/-- The `for (;;)` loop of `dots_by_access_unit` (src/esdots.c lines
304-378).  After classifying a unit the driver inspects the context's
end-of-stream flag: without `-hasheos` it prints the stopping message and
breaks; with it, it prints an extra `#` glyph and clears both the
end-of-stream and no-more-data flags before falling through to the
max-count test, which compares the context's NAL-unit count. -/
def h264_loop (hash_eos : Bool) (max : Nat) :
    List (Fetch H264Event) → AUContext → Nat → H264Run
  | [], ctx, count => ⟨[], count, ctx, 1, false⟩
  | .fail :: _, ctx, count => ⟨[], count, ctx, 1, true⟩
  | .ok e :: rest, _ctx, count =>
      let ctxA : AUContext := ⟨e.eos_after, e.nmd_after, e.nal_count_after⟩
      let g := Out.glyph (access_unit_glyph e.unit)
      if ctxA.end_of_stream && !hash_eos then
        ⟨[g, Out.stopEOS], count + 1, ctxA, 1, false⟩
      else
        let eosOuts := if ctxA.end_of_stream then [Out.glyph "#"] else []
        let ctxB : AUContext :=
          if ctxA.end_of_stream then ⟨false, false, ctxA.nal_count⟩ else ctxA
        if 0 < max ∧ max ≤ ctxB.nal_count then
          ⟨g :: eosOuts ++ [Out.stopMax ctxB.nal_count "NAL units"],
           count + 1, ctxB, 1, false⟩
        else
          let r := h264_loop hash_eos max rest ctxB (count + 1)
          ⟨g :: eosOuts ++ r.out, r.count, r.ctx, r.fetches + 1, r.err⟩

/-- `dots_by_access_unit` (src/esdots.c lines 274-385), non-verbose path:
`build_access_unit_context` starts with clear flags and a zero NAL count;
unless a fetch error occurred, print the
`"\nFound %d NAL unit%s in %d access unit%s\n"` summary. -/
def dots_by_access_unit (hash_eos : Bool) (max : Nat)
    (src : List (Fetch H264Event)) : H264Run :=
  let r := h264_loop hash_eos max src ⟨false, false, 0⟩ 0
  if r.err then r
  else { r with out := r.out ++ [Out.foundH264 r.ctx.nal_count r.count] }

/-! ## Raw ES-unit mode: `report_file_as_ES_dots` -/

/-- The stream families handled by `report_file_as_ES_dots` (the `VIDEO_*`
constants of the library headers). -/
inductive VideoType where
  | unknown
  | h262
  | h264
  | avs
  deriving Repr, DecidableEq

/-- A raw ES unit as handed over by `find_next_ES_unit`: its start code and
payload bytes.  `avs_coding_type` black-box models the library routine
`avs_picture_coding_type` (not under src/), which decodes the
picture-coding-type field of a 0xB6 picture unit from the payload. -/
structure ESUnit where
  start_code : Nat
  data : List Nat
  avs_coding_type : Nat
  deriving Repr, DecidableEq

/-- The picture-coding-type extraction of the H.262 branch of
`report_file_as_ES_dots` (src/esdots.c line 475):
`(unit.data[5] & 0x38) >> 3`, read from the fixed byte offset 5 of the
payload.  The C code indexes unconditionally; a missing byte is read as
0 here. -/
def es_picture_coding_type (u : ESUnit) : Nat :=
  (u.data.getD 5 0 &&& 0x38) >>> 3

/-- The glyph of the H.262 branch of the raw ES-unit loop (src/esdots.c
lines 470-500); unlike item mode, slice start codes print `_` and an
out-of-range coding type prints `!`. -/
def es_h262_glyph (u : ESUnit) : String :=
  if u.start_code = 0x00 then
    (if es_picture_coding_type u = 1 then "i"
     else if es_picture_coding_type u = 2 then "p"
     else if es_picture_coding_type u = 3 then "b"
     else if es_picture_coding_type u = 4 then "d"
     else "!")
  else if u.start_code = 0xB0 then "R"
  else if u.start_code = 0xB1 then "R"
  else if u.start_code = 0xB2 then "U"
  else if u.start_code = 0xB3 then "["
  else if u.start_code = 0xB4 then "X"
  else if u.start_code = 0xB5 then "E"
  else if u.start_code = 0xB6 then "R"
  else if u.start_code = 0xB7 then "]"
  else if u.start_code = 0xB8 then ">"
  else if 0x01 ≤ u.start_code ∧ u.start_code ≤ 0xAF then "_"
  else "?"

/-- The glyph of the AVS branch of the raw ES-unit loop (src/esdots.c lines
504-528). -/
def es_avs_glyph (u : ESUnit) : String :=
  if u.start_code = 0xB3 then "i"
  else if u.start_code = 0xB6 then
    (if u.avs_coding_type = AVS_P_PICTURE_CODING then "p"
     else if u.avs_coding_type = AVS_B_PICTURE_CODING then "b"
     else "!")
  else if u.start_code = 0xB0 then "["
  else if u.start_code = 0xB1 then "]"
  else if u.start_code = 0xB2 then "U"
  else if u.start_code = 0xB5 then "E"
  else if u.start_code = 0xB7 then "V"
  else if u.start_code < 0xB0 then "_"
  else "?"

/-- The per-unit output of the raw ES-unit loop.  The H.264 case of the
`switch` is an empty `break` (src/esdots.c line 502-503): it prints
nothing, as does the unreachable default. -/
def es_unit_out (what_data : VideoType) (u : ESUnit) : List Out :=
  match what_data with
  | .h262 => [Out.glyph (es_h262_glyph u)]
  | .h264 => []
  | .avs => [Out.glyph (es_avs_glyph u)]
  | .unknown => []

/-- Result of one driver run over a raw ES-unit source. -/
structure ESRun where
  out : List Out
  count : Nat
  fetches : Nat
  err : Bool
  deriving Repr, DecidableEq

/-- The `for (;;)` loop of `report_file_as_ES_dots` (src/esdots.c lines
460-540); the max-count test compares the unit count and stopping on it
prints the `"Stopping because %d ES units have been read"` message. -/
def es_loop (what_data : VideoType) (max : Nat) :
    List (Fetch ESUnit) → Nat → ESRun
  | [], count => ⟨[], count, 1, false⟩
  | .fail :: _, count => ⟨[], count, 1, true⟩
  | .ok u :: rest, count =>
      let outs := es_unit_out what_data u
      if 0 < max ∧ max ≤ count + 1 then
        ⟨outs ++ [Out.stopMax (count + 1) "ES units"], count + 1, 1, false⟩
      else
        let r := es_loop what_data max rest (count + 1)
        ⟨outs ++ r.out, r.count, r.fetches + 1, r.err⟩

/-- The `if (verbose)` preamble of `report_file_as_ES_dots` (src/esdots.c
lines 409-458), reduced to its control flow (the legend text is elided):
for H.264 it prints `"### esdots: -es is not yet supported for H.264"` and
returns 1; the AVS legend case has no `break` and falls through into the
default case, which prints `"### esdots: Unexpected type of data"` and
returns 1.  Returns the abort message, if any. -/
def es_verbose_preamble (what_data : VideoType) : Option Out :=
  match what_data with
  | .h262 => none
  | .h264 => some (Out.errText "### esdots: -es is not yet supported for H.264\n")
  | .avs => some (Out.errText "### esdots: Unexpected type of data\n")
  | .unknown => some (Out.errText "### esdots: Unexpected type of data\n")

/-- `report_file_as_ES_dots` (src/esdots.c lines 398-545): the verbose
preamble may abort with an error before any unit is fetched; otherwise the
loop runs and, unless a fetch error occurred, the
`"\nFound %d ES units%s\n"` summary is printed. -/
def report_file_as_ES_dots (what_data : VideoType) (max : Nat)
    (verbose : Bool) (src : List (Fetch ESUnit)) : ESRun :=
  match (if verbose then es_verbose_preamble what_data else none) with
  | some msg => ⟨[msg], 0, 0, true⟩
  | none =>
    let r := es_loop what_data max src 0
    if r.err then r
    else { r with out := r.out ++ [Out.found r.count "ES units"] }

/-- The exit code of `main` (src/esdots.c lines 710-736) when the `-es`
option selected `report_file_as_ES_dots`: 1 when that function reported an
error, else 0. -/
def esdots_es_exit_code (what_data : VideoType) (max : Nat)
    (verbose : Bool) (src : List (Fetch ESUnit)) : Nat :=
  if (report_file_as_ES_dots what_data max verbose src).err then 1 else 0

/-! ## Shared helper lemmas -/

theorem glyphCount_append (a b : List Out) :
    glyphCount (a ++ b) = glyphCount a + glyphCount b := by
  simp [glyphCount, List.filter_append]

theorem glyphCount_marker_if (c : Prop) [Decidable c] (m : Nat) :
    glyphCount (if c then [Out.marker m] else []) = 0 := by
  split_ifs <;> simp [glyphCount, Out.isGlyph]

theorem glyphCount_glyphOuts (g : Option String) :
    glyphCount (glyphOuts g) = if g.isSome then 1 else 0 := by
  cases g <;> simp [glyphOuts, glyphCount, Out.isGlyph]

theorem markersOf_append (a b : List Out) :
    markersOf (a ++ b) = markersOf a ++ markersOf b := by
  simp [markersOf, List.filter_append]

theorem markersOf_glyphOuts (g : Option String) :
    markersOf (glyphOuts g) = [] := by
  cases g <;> simp [glyphOuts, markersOf, Out.isMarker]

theorem h262_item_glyph_slice (item : H262Item)
    (h1 : 0x01 ≤ item.start_code) (h2 : item.start_code ≤ 0xAF) :
    h262_item_glyph item = none := by
  unfold h262_item_glyph
  rw [if_neg (by omega : ¬item.start_code = 0x00),
    if_neg (by omega : ¬item.start_code = 0xB0),
    if_neg (by omega : ¬item.start_code = 0xB1),
    if_neg (by omega : ¬item.start_code = 0xB2),
    if_neg (by omega : ¬item.start_code = 0xB3),
    if_neg (by omega : ¬item.start_code = 0xB4),
    if_neg (by omega : ¬item.start_code = 0xB5),
    if_neg (by omega : ¬item.start_code = 0xB6),
    if_neg (by omega : ¬item.start_code = 0xB7),
    if_neg (by omega : ¬item.start_code = 0xB8),
    if_pos ⟨h1, h2⟩]

theorem h262_item_glyph_high (item : H262Item)
    (h : 0xB9 ≤ item.start_code) : h262_item_glyph item = some "?" := by
  unfold h262_item_glyph
  rw [if_neg (by omega : ¬item.start_code = 0x00),
    if_neg (by omega : ¬item.start_code = 0xB0),
    if_neg (by omega : ¬item.start_code = 0xB1),
    if_neg (by omega : ¬item.start_code = 0xB2),
    if_neg (by omega : ¬item.start_code = 0xB3),
    if_neg (by omega : ¬item.start_code = 0xB4),
    if_neg (by omega : ¬item.start_code = 0xB5),
    if_neg (by omega : ¬item.start_code = 0xB6),
    if_neg (by omega : ¬item.start_code = 0xB7),
    if_neg (by omega : ¬item.start_code = 0xB8),
    if_neg (by omega :
      ¬(0x01 ≤ item.start_code ∧ item.start_code ≤ 0xAF))]

set_option maxHeartbeats 1000000 in
theorem h262_item_glyph_isSome (item : H262Item)
    (h : ¬(0x01 ≤ item.start_code ∧ item.start_code ≤ 0xAF)) :
    (h262_item_glyph item).isSome := by
  simp only [h262_item_glyph]
  split_ifs <;> rfl

/-! ## Claims -/

/-- C1: for every H.264 access unit, classification follows the
priority-ordered decision tree of `dots_by_access_unit`: no primary NAL
unit gives `_`; otherwise a non-reference primary (nal_ref_idc = 0) gives
`i`/`p`/`b` for homogeneous slices and `x` when mixed — even when the NAL
unit is an IDR, so the non-reference test takes priority over the IDR
test; otherwise an IDR gives `D` when all slices are I and `d` otherwise;
otherwise a non-IDR reference NAL gives `I`/`P`/`B`/`X`; any other NAL
kind gives `?`. -/
theorem c1_h264_access_unit_decision_tree (au : AccessUnit) (p : NalInfo) :
    (au.primary_start = none → access_unit_glyph au = "_") ∧
    (au.primary_start = some p → p.nal_ref_idc = 0 →
      access_unit_glyph au =
        (if all_slices_I au then "i"
         else if all_slices_P au then "p"
         else if all_slices_B au then "b"
         else "x")) ∧
    (au.primary_start = some p → p.nal_ref_idc ≠ 0 →
      p.nal_unit_type = NAL_IDR →
      access_unit_glyph au = (if all_slices_I au then "D" else "d")) ∧
    (au.primary_start = some p → p.nal_ref_idc ≠ 0 →
      p.nal_unit_type = NAL_NON_IDR →
      access_unit_glyph au =
        (if all_slices_I au then "I"
         else if all_slices_P au then "P"
         else if all_slices_B au then "B"
         else "X")) ∧
    (au.primary_start = some p → p.nal_ref_idc ≠ 0 →
      p.nal_unit_type ≠ NAL_IDR → p.nal_unit_type ≠ NAL_NON_IDR →
      access_unit_glyph au = "?") := by
  refine ⟨?_, ?_, ?_, ?_, ?_⟩
  · intro h
    simp [access_unit_glyph, h]
  · intro h href
    simp [access_unit_glyph, h, href]
  · intro h href hidr
    simp [access_unit_glyph, h, href, hidr]
  · intro h href hnon
    simp [access_unit_glyph, h, href, hnon, NAL_NON_IDR, NAL_IDR]
  · intro h href h1 h2
    simp [access_unit_glyph, h, href, h1, h2]

/-- Witness for C1: an IDR access unit whose primary NAL unit is
non-reference and whose slices are all P is classified `p` (lowercase):
the non-reference test wins over the IDR test. -/
theorem c1_h264_access_unit_decision_tree_witness :
    access_unit_glyph ⟨some ⟨0, 5⟩, [SliceKind.P, SliceKind.P]⟩ = "p" := by
  have h :=
    (c1_h264_access_unit_decision_tree
      ⟨some ⟨0, 5⟩, [SliceKind.P, SliceKind.P]⟩ ⟨0, 5⟩).2.1 rfl rfl
  simpa using h

/-- C2: the MPEG-2 item classifier of `h262_item_dot` emits `i`/`p`/`b`/`d`
for a picture (start code 0x00) of coding type 1/2/3/4 and `x` for any
other coding type; `R` for 0xB0/0xB1/0xB6, `U` for 0xB2, `[` for 0xB3,
`X` for 0xB4, `E` for 0xB5, `]` for 0xB7, `>` for 0xB8; no glyph at all
for slice codes in [0x01,0xAF]; and `?` for every remaining code. -/
theorem c2_h262_item_rule_table (item : H262Item) :
    (item.start_code = 0x00 → item.picture_coding_type = 1 →
      h262_item_glyph item = some "i") ∧
    (item.start_code = 0x00 → item.picture_coding_type = 2 →
      h262_item_glyph item = some "p") ∧
    (item.start_code = 0x00 → item.picture_coding_type = 3 →
      h262_item_glyph item = some "b") ∧
    (item.start_code = 0x00 → item.picture_coding_type = 4 →
      h262_item_glyph item = some "d") ∧
    (item.start_code = 0x00 → item.picture_coding_type ≠ 1 →
      item.picture_coding_type ≠ 2 → item.picture_coding_type ≠ 3 →
      item.picture_coding_type ≠ 4 → h262_item_glyph item = some "x") ∧
    (item.start_code = 0xB0 ∨ item.start_code = 0xB1 ∨
        item.start_code = 0xB6 → h262_item_glyph item = some "R") ∧
    (item.start_code = 0xB2 → h262_item_glyph item = some "U") ∧
    (item.start_code = 0xB3 → h262_item_glyph item = some "[") ∧
    (item.start_code = 0xB4 → h262_item_glyph item = some "X") ∧
    (item.start_code = 0xB5 → h262_item_glyph item = some "E") ∧
    (item.start_code = 0xB7 → h262_item_glyph item = some "]") ∧
    (item.start_code = 0xB8 → h262_item_glyph item = some ">") ∧
    (0x01 ≤ item.start_code → item.start_code ≤ 0xAF →
      h262_item_glyph item = none) ∧
    (0xB9 ≤ item.start_code → h262_item_glyph item = some "?") := by
  refine ⟨?_, ?_, ?_, ?_, ?_, ?_, ?_, ?_, ?_, ?_, ?_, ?_, ?_, ?_⟩ <;>
    intro h
  · intro h2; simp [h262_item_glyph, h, h2]
  · intro h2; simp [h262_item_glyph, h, h2]
  · intro h2; simp [h262_item_glyph, h, h2]
  · intro h2; simp [h262_item_glyph, h, h2]
  · intro h1 h2 h3 h4; simp [h262_item_glyph, h, h1, h2, h3, h4]
  · rcases h with h | h | h <;> simp [h262_item_glyph, h]
  · simp [h262_item_glyph, h]
  · simp [h262_item_glyph, h]
  · simp [h262_item_glyph, h]
  · simp [h262_item_glyph, h]
  · simp [h262_item_glyph, h]
  · simp [h262_item_glyph, h]
  · exact fun h2 => h262_item_glyph_slice item h h2
  · exact h262_item_glyph_high item h

/-- Witness for C2: a slice item (start code 0x35) yields no glyph, while a
picture of coding type 3 yields `b` and start code 0xC0 yields `?`. -/
theorem c2_h262_item_rule_table_witness :
    h262_item_glyph ⟨0x35, 0⟩ = none ∧
    h262_item_glyph ⟨0x00, 3⟩ = some "b" ∧
    h262_item_glyph ⟨0xC0, 0⟩ = some "?" :=
  ⟨(c2_h262_item_rule_table ⟨0x35, 0⟩).2.2.2.2.2.2.2.2.2.2.2.2.1
      (by decide) (by decide),
   (c2_h262_item_rule_table ⟨0x00, 3⟩).2.2.1 rfl rfl,
   (c2_h262_item_rule_table ⟨0xC0, 0⟩).2.2.2.2.2.2.2.2.2.2.2.2.2
      (by decide)⟩

theorem hexTag_ne_question (n : Nat) : hexTag n ≠ "?" := by
  intro h
  have hl := congrArg String.length h
  have e1 : ("<" : String).length = 1 := rfl
  have e2 : (">" : String).length = 1 := rfl
  have e3 : ("?" : String).length = 1 := rfl
  simp only [hexTag, String.length_append, e1, e2, e3] at hl
  omega

/-- C3: for every AVS frame, `report_avs_file_as_dots` emits `i`/`p`/`b`
for coding type I/P/B and `!` for any other coding-type value; a non-frame
with start code below 0xB0 gives `_`; 0xB0 gives `[` and caches the
frame-rate code (through `avs_frame_rate`) for the timing state; 0xB1
gives `]`, 0xB2 gives `U`, 0xB5 gives `E`, 0xB7 gives `V`; and any other
start code is rendered as the explicit hexadecimal tag `<%x>`, which is
never the string `?`. -/
theorem c3_avs_frame_rule_table (f : AvsFrame) (frames : Nat) (rate : ℚ) :
    (f.is_frame = true → f.picture_coding_type = AVS_I_PICTURE_CODING →
      avs_frame_glyph f = "i") ∧
    (f.is_frame = true → f.picture_coding_type = AVS_P_PICTURE_CODING →
      avs_frame_glyph f = "p") ∧
    (f.is_frame = true → f.picture_coding_type = AVS_B_PICTURE_CODING →
      avs_frame_glyph f = "b") ∧
    (f.is_frame = true → f.picture_coding_type ≠ AVS_I_PICTURE_CODING →
      f.picture_coding_type ≠ AVS_P_PICTURE_CODING →
      f.picture_coding_type ≠ AVS_B_PICTURE_CODING →
      avs_frame_glyph f = "!") ∧
    (f.is_frame = false → f.start_code < 0xB0 → avs_frame_glyph f = "_") ∧
    (f.is_frame = false → f.start_code = 0xB0 →
      avs_frame_glyph f = "[" ∧
      (avs_step frames rate f).rate = avs_frame_rate f.frame_rate_code) ∧
    (f.is_frame = false → f.start_code = 0xB1 → avs_frame_glyph f = "]") ∧
    (f.is_frame = false → f.start_code = 0xB2 → avs_frame_glyph f = "U") ∧
    (f.is_frame = false → f.start_code = 0xB5 → avs_frame_glyph f = "E") ∧
    (f.is_frame = false → f.start_code = 0xB7 → avs_frame_glyph f = "V") ∧
    (f.is_frame = false → 0xB0 ≤ f.start_code →
      f.start_code ≠ 0xB0 → f.start_code ≠ 0xB1 → f.start_code ≠ 0xB2 →
      f.start_code ≠ 0xB5 → f.start_code ≠ 0xB7 →
      avs_frame_glyph f = hexTag f.start_code ∧
        hexTag f.start_code ≠ "?") := by
  refine ⟨?_, ?_, ?_, ?_, ?_, ?_, ?_, ?_, ?_, ?_, ?_⟩ <;> intro hf
  · intro h; simp [avs_frame_glyph, hf, h]
  · intro h; simp [avs_frame_glyph, hf, h, AVS_P_PICTURE_CODING,
      AVS_I_PICTURE_CODING]
  · intro h; simp [avs_frame_glyph, hf, h, AVS_B_PICTURE_CODING,
      AVS_P_PICTURE_CODING, AVS_I_PICTURE_CODING]
  · intro h1 h2 h3; simp [avs_frame_glyph, hf, h1, h2, h3]
  · intro h; simp [avs_frame_glyph, hf, h]
  · intro h
    constructor
    · simp [avs_frame_glyph, hf, h]
    · simp [avs_step, hf, h]
  · intro h; simp [avs_frame_glyph, hf, h]
  · intro h; simp [avs_frame_glyph, hf, h]
  · intro h; simp [avs_frame_glyph, hf, h]
  · intro h; simp [avs_frame_glyph, hf, h]
  · intro hge h0 h1 h2 h5 h7
    refine ⟨?_, hexTag_ne_question f.start_code⟩
    unfold avs_frame_glyph
    rw [if_neg (by simp [hf]), if_neg (by omega : ¬f.start_code < 0xB0),
      if_neg h0, if_neg h1, if_neg h2, if_neg h5, if_neg h7]

/-- Witness for C3: an unrecognized AVS start code 0xB9 is rendered as the
hexadecimal tag `<b9>`, and a sequence header with frame-rate code 6
caches the 50 fps frame rate. -/
theorem c3_avs_frame_rule_table_witness :
    avs_frame_glyph ⟨false, 0, 0xB9, 0⟩ = "<b9>" ∧
    (avs_step 0 25 ⟨false, 0, 0xB0, 6⟩).rate = 50 := by
  constructor
  · have h := ((c3_avs_frame_rule_table ⟨false, 0, 0xB9, 0⟩ 0 25)
      |>.2.2.2.2.2.2.2.2.2.2) rfl (by decide) (by decide) (by decide)
      (by decide) (by decide) (by decide)
    rw [h.1]
    rfl
  · have h := ((c3_avs_frame_rule_table ⟨false, 0, 0xB0, 6⟩ 0 25)
      |>.2.2.2.2.2.1) rfl rfl
    rw [h.2]
    rfl

/-- C4: in H.264 mode, when the end-of-stream flag is set after
classifying an access unit: without `-hasheos` the driver prints the
closing message and stops with success at exactly that unit (one fetch,
no recursion into the rest of the source, error flag clear, and the whole
run reports success); with `-hasheos` it emits an additional `#` glyph,
resets both the end-of-stream and no-more-data flags on the shared
context, and continues iterating on the remaining source (provided the
max-count limit has not been reached). -/
theorem c4_h264_eos_handling (e : H264Event) (rest : List (Fetch H264Event))
    (ctx : AUContext) (count max : Nat) (he : e.eos_after = true) :
    (h264_loop false max (Fetch.ok e :: rest) ctx count =
      ⟨[Out.glyph (access_unit_glyph e.unit), Out.stopEOS], count + 1,
       ⟨true, e.nmd_after, e.nal_count_after⟩, 1, false⟩) ∧
    ((dots_by_access_unit false max (Fetch.ok e :: rest)).err = false) ∧
    (¬(0 < max ∧ max ≤ e.nal_count_after) →
      h264_loop true max (Fetch.ok e :: rest) ctx count =
        ⟨Out.glyph (access_unit_glyph e.unit) :: Out.glyph "#" ::
            (h264_loop true max rest ⟨false, false, e.nal_count_after⟩
              (count + 1)).out,
          (h264_loop true max rest ⟨false, false, e.nal_count_after⟩
            (count + 1)).count,
          (h264_loop true max rest ⟨false, false, e.nal_count_after⟩
            (count + 1)).ctx,
          (h264_loop true max rest ⟨false, false, e.nal_count_after⟩
            (count + 1)).fetches + 1,
          (h264_loop true max rest ⟨false, false, e.nal_count_after⟩
            (count + 1)).err⟩) := by
  have key : ∀ (c : AUContext) (k : Nat),
      h264_loop false max (Fetch.ok e :: rest) c k =
        ⟨[Out.glyph (access_unit_glyph e.unit), Out.stopEOS], k + 1,
         ⟨true, e.nmd_after, e.nal_count_after⟩, 1, false⟩ := by
    intro c k
    simp [h264_loop, he]
  refine ⟨key ctx count, ?_, ?_⟩
  · simp [dots_by_access_unit, key ⟨false, false, 0⟩ 0]
  · intro hm
    simp [h264_loop, he, hm]

/-- Witness for C4: on a source whose single access unit (an all-I IDR,
glyph `D`) is followed by the end-of-stream flag with 4 NAL units
counted: without `-hasheos` the loop stops at that unit with the closing
message; with it the loop emits `#`, resets both flags and keeps
iterating (one more fetch consumes the EOF). -/
theorem c4_h264_eos_handling_witness :
    h264_loop false 0
        [Fetch.ok ⟨⟨some ⟨1, 5⟩, [SliceKind.I]⟩, true, true, 4⟩]
        ⟨false, false, 0⟩ 0 =
      ⟨[Out.glyph "D", Out.stopEOS], 1, ⟨true, true, 4⟩, 1, false⟩ ∧
    h264_loop true 0
        [Fetch.ok ⟨⟨some ⟨1, 5⟩, [SliceKind.I]⟩, true, true, 4⟩]
        ⟨false, false, 0⟩ 0 =
      ⟨[Out.glyph "D", Out.glyph "#"], 1, ⟨false, false, 4⟩, 2, false⟩ := by
  constructor
  · exact (c4_h264_eos_handling ⟨⟨some ⟨1, 5⟩, [SliceKind.I]⟩, true, true, 4⟩
      [] ⟨false, false, 0⟩ 0 0 rfl).1
  · have h := (c4_h264_eos_handling
      ⟨⟨some ⟨1, 5⟩, [SliceKind.I]⟩, true, true, 4⟩
      [] ⟨false, false, 0⟩ 0 0 rfl).2.2 (by decide)
    exact h.trans (by decide)

/-- C5 counterexample: in MPEG-2 item mode with `max = 1`, a source whose
first item is a sequence header reaches the limit (count = max = 1, one
fetch, success), but the run's whole output is the glyph and the generic
final summary — it contains no explanatory stopping message at all
(nothing satisfying `Out.isStopMsg`), refuting the claim that every
family stops "with an explanatory message" (`report_h262_file_as_dots`
breaks out of its loop silently at src/esdots.c lines 156-157). -/
theorem c5_max_count_counterexample :
    report_h262_file_as_dots 1 [Fetch.ok ⟨0xB3, 0⟩] =
      ⟨[Out.glyph "[", Out.found 1 "MPEG2 item"], 1, 0, 1, false⟩ ∧
    (report_h262_file_as_dots 1 [Fetch.ok ⟨0xB3, 0⟩]).out.all
        (fun o => !o.isStopMsg) = true := by
  exact ⟨by decide, by decide⟩

/-- C5 amended: for every configured limit greater than zero, each driver
stops with success as soon as its family-specific counter reaches the
limit — the item count for MPEG-2 item mode, the frame count for AVS, the
context's NAL-unit count for H.264, and the unit count for raw-unit
mode — and it halts after exactly one fetch, never touching the rest of
the source.  AVS, H.264 and raw-unit mode print an explanatory
`"Stopping because ..."` message; MPEG-2 item mode stops silently,
printing only the generic final summary. -/
theorem c5_max_count_amended (max : Nat) :
    (∀ (item : H262Item) rest count frames, 0 < max → max ≤ count + 1 →
      h262_loop max (Fetch.ok item :: rest) count frames =
        ⟨(h262_item_dot frames item).2, count + 1,
         (h262_item_dot frames item).1, 1, false⟩) ∧
    (∀ (f : AvsFrame) rest count frames rate,
      0 < max → max ≤ (avs_step frames rate f).frames →
      avs_loop max (Fetch.ok f :: rest) count frames rate =
        ⟨(avs_step frames rate f).out ++
            [Out.stopMax (avs_step frames rate f).frames "frames"],
          count + 1, (avs_step frames rate f).frames,
          (avs_step frames rate f).rate, 1, false⟩) ∧
    (∀ (e : H264Event) rest ctx count (hash_eos : Bool),
      (e.eos_after = true → hash_eos = true) →
      0 < max → max ≤ e.nal_count_after →
      h264_loop hash_eos max (Fetch.ok e :: rest) ctx count =
        ⟨Out.glyph (access_unit_glyph e.unit) ::
            (if e.eos_after then [Out.glyph "#"] else []) ++
            [Out.stopMax e.nal_count_after "NAL units"],
          count + 1,
          (if e.eos_after then ⟨false, false, e.nal_count_after⟩
           else ⟨e.eos_after, e.nmd_after, e.nal_count_after⟩ : AUContext),
          1, false⟩) ∧
    (∀ (what_data : VideoType) (u : ESUnit) rest count,
      0 < max → max ≤ count + 1 →
      es_loop what_data max (Fetch.ok u :: rest) count =
        ⟨es_unit_out what_data u ++ [Out.stopMax (count + 1) "ES units"],
          count + 1, 1, false⟩) := by
  refine ⟨?_, ?_, ?_, ?_⟩
  · intro item rest count frames h1 h2
    simp [h262_loop, h1, h2]
  · intro f rest count frames rate h1 h2
    simp [avs_loop, h1, h2]
  · intro e rest ctx count hash_eos heos h1 h2
    cases hef : e.eos_after
    · simp [h264_loop, hef, h1, h2]
    · have hh : hash_eos = true := heos hef
      subst hh
      simp [h264_loop, hef, h1, h2]
  · intro what_data u rest count h1 h2
    simp [es_loop, h1, h2]

/-- Witness for C5 amended: each of the four drivers, with `max = 1` and a
counter that reaches 1 on the first unit, stops right there after a
single fetch; the AVS, H.264 and ES runs end in the stopping message,
the MPEG-2 run does not. -/
theorem c5_max_count_amended_witness :
    h262_loop 1 [Fetch.ok ⟨0xB3, 0⟩, Fetch.fail] 0 0 =
      ⟨[Out.glyph "["], 1, 0, 1, false⟩ ∧
    avs_loop 1 [Fetch.ok ⟨true, 0, 0, 0⟩, Fetch.fail] 0 0 25 =
      ⟨[Out.glyph "i", Out.stopMax 1 "frames"], 1, 1, 25, 1, false⟩ ∧
    h264_loop false 1
        [Fetch.ok ⟨⟨none, []⟩, false, false, 2⟩, Fetch.fail]
        ⟨false, false, 0⟩ 0 =
      ⟨[Out.glyph "_", Out.stopMax 2 "NAL units"], 1, ⟨false, false, 2⟩,
        1, false⟩ ∧
    es_loop VideoType.h262 1 [Fetch.ok ⟨0x01, [], 0⟩, Fetch.fail] 0 =
      ⟨[Out.glyph "_", Out.stopMax 1 "ES units"], 1, 1, false⟩ := by
  have ht : avs_threshold 25 = 1500 := by
    have h60 : (25 : ℚ) * 60 = 1500 := by norm_num
    unfold avs_threshold
    rw [h60]
    decide
  have hstep : avs_step 0 25 ⟨true, 0, 0, 0⟩ =
      ⟨1, 25, [Out.glyph "i"]⟩ := by
    simp [avs_step, avs_frame_glyph, AVS_I_PICTURE_CODING, ht]
  refine ⟨?_, ?_, ?_, ?_⟩
  · exact ((c5_max_count_amended 1).1 ⟨0xB3, 0⟩ [Fetch.fail] 0 0
      (by decide) (by decide)).trans (by decide)
  · exact ((c5_max_count_amended 1).2.1 ⟨true, 0, 0, 0⟩ [Fetch.fail] 0 0 25
      (by decide) (by rw [hstep])).trans (by rw [hstep]; rfl)
  · exact ((c5_max_count_amended 1).2.2.1 ⟨⟨none, []⟩, false, false, 2⟩
      [Fetch.fail] ⟨false, false, 0⟩ 0 false (fun h => by cases h)
      (by decide) (by decide)).trans (by decide)
  · exact ((c5_max_count_amended 1).2.2.2 VideoType.h262 ⟨0x01, [], 0⟩
      [Fetch.fail] 0 (by decide) (by decide)).trans (by decide)

/-- C6: evaluation of the `-es` + H.264 combination at a concrete input.
The claim (and the spec, and the tool's own diagnostic text) says the
combination is an explicit error with exit code 1 regardless of other
options; in the code the error return sits inside the `if (verbose)`
legend block (src/esdots.c lines 432-435), so without `-verbose` the run
classifies every unit silently (the H.264 `switch` case prints nothing),
prints only the summary, and exits 0; the error and exit code 1 happen
only when `-verbose` is given. -/
theorem c6_es_h264_exit_code :
    esdots_es_exit_code VideoType.h264 0 false [Fetch.ok ⟨0x05, [], 0⟩] =
      0 ∧
    (report_file_as_ES_dots VideoType.h264 0 false
        [Fetch.ok ⟨0x05, [], 0⟩]).out = [Out.found 1 "ES units"] ∧
    esdots_es_exit_code VideoType.h264 0 true [Fetch.ok ⟨0x05, [], 0⟩] =
      1 ∧
    (report_file_as_ES_dots VideoType.h264 0 true
        [Fetch.ok ⟨0x05, [], 0⟩]).out =
      [Out.errText "### esdots: -es is not yet supported for H.264\n"] := by
  refine ⟨by decide, by decide, by decide, by decide⟩

set_option maxHeartbeats 4000000 in
/-- C7: in raw ES-unit mode on MPEG-2 data every unit yields a visible
one-character glyph; a slice-range start code in [0x01,0xAF] yields `_`
(where item mode emits nothing), and a picture start code whose coding
type — extracted from byte offset 5 of the payload as
`(data[5] & 0x38) >> 3` — is out of range yields `!` (where item mode
emits `x`). -/
theorem c7_es_h262_raw_mode (u : ESUnit) :
    ((es_h262_glyph u).length = 1) ∧
    (0x01 ≤ u.start_code → u.start_code ≤ 0xAF →
      es_h262_glyph u = "_") ∧
    (u.start_code = 0x00 →
      es_picture_coding_type u ≠ 1 → es_picture_coding_type u ≠ 2 →
      es_picture_coding_type u ≠ 3 → es_picture_coding_type u ≠ 4 →
      es_h262_glyph u = "!") ∧
    (0x01 ≤ u.start_code → u.start_code ≤ 0xAF →
      ∀ pct, h262_item_glyph ⟨u.start_code, pct⟩ = none) ∧
    (u.start_code = 0x00 →
      es_picture_coding_type u ≠ 1 → es_picture_coding_type u ≠ 2 →
      es_picture_coding_type u ≠ 3 → es_picture_coding_type u ≠ 4 →
      h262_item_glyph ⟨u.start_code, es_picture_coding_type u⟩ =
        some "x") := by
  refine ⟨?_, ?_, ?_, ?_, ?_⟩
  · unfold es_h262_glyph
    split_ifs <;> rfl
  · intro h1 h2
    unfold es_h262_glyph
    rw [if_neg (by omega : ¬u.start_code = 0x00),
      if_neg (by omega : ¬u.start_code = 0xB0),
      if_neg (by omega : ¬u.start_code = 0xB1),
      if_neg (by omega : ¬u.start_code = 0xB2),
      if_neg (by omega : ¬u.start_code = 0xB3),
      if_neg (by omega : ¬u.start_code = 0xB4),
      if_neg (by omega : ¬u.start_code = 0xB5),
      if_neg (by omega : ¬u.start_code = 0xB6),
      if_neg (by omega : ¬u.start_code = 0xB7),
      if_neg (by omega : ¬u.start_code = 0xB8),
      if_pos ⟨h1, h2⟩]
  · intro h0 hn1 hn2 hn3 hn4
    simp [es_h262_glyph, h0, hn1, hn2, hn3, hn4]
  · intro h1 h2 pct
    exact h262_item_glyph_slice ⟨u.start_code, pct⟩ h1 h2
  · intro h0 hn1 hn2 hn3 hn4
    simp [h262_item_glyph, h0, hn1, hn2, hn3, hn4]

/-- Witness for C7: a raw ES unit with slice start code 0x01 yields `_`,
and a picture unit whose payload byte 5 encodes coding type 0 yields
`!`; item mode on the same discriminants yields nothing and `x`. -/
theorem c7_es_h262_raw_mode_witness :
    es_h262_glyph ⟨0x01, [], 0⟩ = "_" ∧
    es_h262_glyph ⟨0x00, [0, 0, 1, 0, 0, 0, 0], 0⟩ = "!" ∧
    h262_item_glyph ⟨0x01, 0⟩ = none ∧
    h262_item_glyph ⟨0x00, 0⟩ = some "x" :=
  ⟨(c7_es_h262_raw_mode ⟨0x01, [], 0⟩).2.1 (by decide) (by decide),
   (c7_es_h262_raw_mode ⟨0x00, [0, 0, 1, 0, 0, 0, 0], 0⟩).2.2.1 rfl
     (by decide) (by decide) (by decide) (by decide),
   (c7_es_h262_raw_mode ⟨0x01, [], 0⟩).2.2.2.1 (by decide) (by decide) 0,
   (c7_es_h262_raw_mode ⟨0x00, [0, 0, 1, 0, 0, 0, 0], 0⟩).2.2.2.2 rfl
     (by decide) (by decide) (by decide) (by decide)⟩

/-- C8: every fetched unit's classification produces at most one glyph
emission: MPEG-2 slice items in item mode produce zero, every other
MPEG-2 item, every AVS frame (including the hexadecimal tag of an
unrecognized start code, one emission) and every raw H.262/AVS ES unit
produces exactly one, and an H.264 access unit's classification
contributes exactly one glyph — the unit's trace starts with it — with
the `#` of the `-hasheos` end-of-stream side effect as the only possible
extra glyph emission. -/
theorem c8_one_glyph_invariant :
    (∀ frames (item : H262Item),
      glyphCount (h262_item_dot frames item).2 =
        if 0x01 ≤ item.start_code ∧ item.start_code ≤ 0xAF then 0
        else 1) ∧
    (∀ frames (rate : ℚ) (f : AvsFrame),
      glyphCount (avs_step frames rate f).out = 1) ∧
    (∀ u : ESUnit, glyphCount (es_unit_out VideoType.h262 u) = 1) ∧
    (∀ u : ESUnit, glyphCount (es_unit_out VideoType.avs u) = 1) ∧
    (∀ (hash : Bool) (ctx : AUContext) (e : H264Event),
      (h264_loop hash 0 [Fetch.ok e] ctx 0).out.head? =
        some (Out.glyph (access_unit_glyph e.unit)) ∧
      glyphCount (h264_loop hash 0 [Fetch.ok e] ctx 0).out =
        (if e.eos_after && hash then 2 else 1)) := by
  refine ⟨?_, ?_, ?_, ?_, ?_⟩
  · intro frames item
    simp only [h262_item_dot, glyphCount_append, glyphCount_marker_if,
      glyphCount_glyphOuts, Nat.zero_add]
    by_cases hs : 0x01 ≤ item.start_code ∧ item.start_code ≤ 0xAF
    · rw [if_pos hs, h262_item_glyph_slice item hs.1 hs.2]
      rfl
    · rw [if_neg hs]
      simp [h262_item_glyph_isSome item hs]
  · intro frames rate f
    cases hf : f.is_frame
    · simp [avs_step, hf, glyphCount, Out.isGlyph]
    · simp [avs_step, hf, glyphCount_append, glyphCount_marker_if,
        glyphCount, Out.isGlyph]
  · intro u
    simp [es_unit_out, glyphCount, Out.isGlyph]
  · intro u
    simp [es_unit_out, glyphCount, Out.isGlyph]
  · intro hash ctx e
    cases heos : e.eos_after <;> cases hash <;>
      simp [h264_loop, heos, glyphCount, Out.isGlyph]

/-- C9: the minute-marker arithmetic is asymmetric.  For MPEG-2 items both
the threshold test and the displayed minute number use the fixed 25 fps
assumption: the marker fires iff the pre-increment frame counter is a
multiple of 25×60 and displays counter ÷ (25×60).  For AVS the threshold
test uses `avs_threshold` of the frame rate carried in the driver state —
which a sequence header (start code 0xB0) overwrites with
`avs_frame_rate` of its frame-rate code — while the displayed minute
count still divides the post-increment frame counter by the fixed
25×60. -/
theorem c9_minute_marker_asymmetry (frames : Nat) (rate : ℚ)
    (item : H262Item) (f : AvsFrame) :
    (markersOf (h262_item_dot frames item).2 =
      if item.start_code = 0x00 ∧ frames % (25 * 60) = 0 then
        [Out.marker (frames / (25 * 60))]
      else []) ∧
    (f.is_frame = true →
      markersOf (avs_step frames rate f).out =
        if (frames + 1) % avs_threshold rate = 0 then
          [Out.marker ((frames + 1) / (25 * 60))]
        else []) ∧
    (f.is_frame = false → f.start_code = 0xB0 →
      (avs_step frames rate f).rate = avs_frame_rate f.frame_rate_code ∧
      markersOf (avs_step frames rate f).out = []) := by
  refine ⟨?_, ?_, ?_⟩
  · simp only [h262_item_dot, markersOf_append, markersOf_glyphOuts,
      List.append_nil]
    split_ifs <;> simp [markersOf, Out.isMarker]
  · intro hf
    simp only [avs_step, hf, if_true]
    rw [markersOf_append]
    split_ifs <;> simp [markersOf, Out.isMarker]
  · intro hf h0
    constructor
    · simp [avs_step, hf, h0]
    · simp [avs_step, hf, markersOf, Out.isMarker]

/-- Witness for C9: the first MPEG-2 picture (counter 0) gets the
`0 minutes` marker; in AVS, once a sequence header has set the rate to
50 fps, the marker fires at the 3000th frame but displays
3000 ÷ (25×60) = 2 minutes — the threshold used the learned rate while
the display kept the fixed one. -/
theorem c9_minute_marker_asymmetry_witness :
    markersOf (h262_item_dot 0 ⟨0x00, 1⟩).2 = [Out.marker 0] ∧
    markersOf (avs_step 2999 50 ⟨true, 1, 0, 0⟩).out = [Out.marker 2] := by
  have ht : avs_threshold 50 = 3000 := by
    have h60 : (50 : ℚ) * 60 = 3000 := by norm_num
    unfold avs_threshold
    rw [h60]
    decide
  constructor
  · exact (c9_minute_marker_asymmetry 0 50 ⟨0x00, 1⟩
      ⟨true, 1, 0, 0⟩).1.trans (by decide)
  · have h := (c9_minute_marker_asymmetry 2999 50 ⟨0x00, 1⟩
      ⟨true, 1, 0, 0⟩).2.1 rfl
    rw [h, ht]
    decide

/-- C10 counterexample: the 1500th picture of a run (pre-increment counter
value 1499) produces no minute marker at all, and the marker for minute 1
instead fires on the 1501st picture (counter value 1500) — refuting the
claim that "subsequent markers fire on the 1500th, 3000th, ...
pictures". -/
theorem c10_marker_counterexample :
    h262_item_dot 1499 ⟨0x00, 2⟩ = (1500, [Out.glyph "p"]) ∧
    h262_item_dot 1500 ⟨0x00, 2⟩ =
      (1501, [Out.marker 1, Out.glyph "p"]) := by
  refine ⟨by decide, by decide⟩

/-- C10 amended: the minute-marker threshold is tested against the frame
counter before it is incremented, so a `0 minutes` marker precedes the
glyph of the first picture (counter value 0), and later markers fire
immediately before the glyph of the 1501st, 3001st, ... pictures (the
pictures processed at counter values 1500, 3000, ...), not the 1500th and
3000th. -/
theorem c10_marker_amended (n pct : Nat) :
    (h262_item_dot n ⟨0x00, pct⟩).1 = n + 1 ∧
    (n % (25 * 60) = 0 →
      (h262_item_dot n ⟨0x00, pct⟩).2.head? =
        some (Out.marker (n / (25 * 60)))) ∧
    (n % (25 * 60) ≠ 0 →
      markersOf (h262_item_dot n ⟨0x00, pct⟩).2 = []) := by
  refine ⟨?_, ?_, ?_⟩
  · simp [h262_item_dot]
  · intro h
    simp [h262_item_dot, h, h262_item_glyph, glyphOuts]
  · intro h
    have hg : (h262_item_dot n ⟨0x00, pct⟩).2 =
        glyphOuts (h262_item_glyph ⟨0x00, pct⟩) := by
      simp [h262_item_dot, h]
    rw [hg, markersOf_glyphOuts]

/-- Witness for C10 amended: the picture processed at counter value 1500
(the 1501st picture) is preceded by the minute-1 marker. -/
theorem c10_marker_amended_witness :
    (h262_item_dot 1500 ⟨0x00, 2⟩).2.head? = some (Out.marker 1) :=
  (c10_marker_amended 1500 2).2.1 (by decide)

end Esdots
